import Mathlib

/-!
Shallow embedding of the pydbull constraint-extraction / merging engine
(`pydbull/model_validator.py`, `pydbull/django/adapter.py`) and proofs about it.

Python values are modelled by `PyVal`; the pydantic sentinel
`pydantic_core.PydanticUndefined` is modelled by `AdapterVal.undefined`, kept
distinct from a defined Python `None` (`.defined none` at type `Option _`).
-/

namespace Pydbull

/-! ## Data model -/

/-- Python runtime values, as far as the validation code inspects them. -/
inductive PyVal where
  | pyNone
  | pyBool (b : Bool)
  | pyInt (n : Int)
  | pyStr (s : String)
  | pyList (xs : List PyVal)

/-- A constraint-getter result: either the `PydanticUndefined` sentinel or a
defined value (`α` is typically `Option β`, with `none` standing for a defined
Python `None`). -/
inductive AdapterVal (α : Type) where
  | undefined
  | defined (v : α)
deriving DecidableEq

/-- One adapter, as consulted by `_get_field_value` in `model_validator.py`:
`fieldGetter` models `adapter.field_getter(field)` (`none` = the adapter's
model has no such field) and `getter` models the per-constraint method
(`get_max_length`, `get_pattern`, ...) applied to the field handle. -/
structure ConstraintSource (φ α : Type) where
  fieldGetter : String → Option φ
  getter : φ → AdapterVal α

/-- `model_validator._get_field_value` (model_validator.py lines 190-206):
iterate over the adapters; skip an adapter whose `field_getter` returns
`None`; return the first value that is not `PydanticUndefined`; fall through
to `PydanticUndefined`. -/
def get_field_value {φ α : Type} (field : String) :
    List (ConstraintSource φ α) → AdapterVal α
  | [] => .undefined
  | a :: rest =>
    match a.fieldGetter field with
    | none => get_field_value field rest
    | some f =>
      match a.getter f with
      | .undefined => get_field_value field rest
      | .defined v => .defined v

/-- Spec-side reading: the value one adapter reports for a field (an adapter
with no such field reports `undefined`). -/
def consult {φ α : Type} (a : ConstraintSource φ α) (field : String) :
    AdapterVal α :=
  match a.fieldGetter field with
  | none => .undefined
  | some f => a.getter f

/-- Spec-side reading: first non-`undefined` element of a list of reported
values. -/
def firstNonUndefined {α : Type} : List (AdapterVal α) → AdapterVal α
  | [] => .undefined
  | .undefined :: rest => firstNonUndefined rest
  | .defined v :: _ => .defined v

/-- A concrete pydantic-side source whose field "x" defines the Python value
`None`. -/
def pydSourceNone : ConstraintSource Unit (Option Int) where
  fieldGetter := fun _ => some ()
  getter := fun _ => .defined none

/-- A concrete model-side source whose field "x" defines `7`. -/
def djSourceSeven : ConstraintSource Unit (Option Int) where
  fieldGetter := fun _ => some ()
  getter := fun _ => .defined (some 7)

/-! ## Django exception conversion (`DjangoAdapter.convert_to_pydantic_exception`) -/

/-- One leaf `django.core.exceptions.ValidationError`: an optional error code,
its list of messages, and the optional `params` dictionary (whose `"value"`
entry carries the offending input). -/
structure DjangoErrorLeaf where
  code : Option String
  messages : List String
  params : Option (List (String × PyVal))

/-- The Django `ValidationError` shape handed to
`convert_to_pydantic_exception`: either it carries an `error_dict` (a mapping
field name -> list of leaf errors, insertion-ordered) or only a flat
`error_list`. -/
inductive DjangoValidationError where
  | withErrorDict (errorDict : List (String × List DjangoErrorLeaf))
  | withErrorList (errorList : List DjangoErrorLeaf)

/-- `django.core.exceptions.NON_FIELD_ERRORS`. -/
def NON_FIELD_ERRORS : String := "__all__"

/-- One record of a translated `pydantic.ValidationError`: the error type
(code), the message, the location path and the offending input. -/
structure PydanticLineError where
  type : String
  msg : String
  loc : List String
  input : PyVal

/-- `error.code if error.code else "value_error"` (a missing or empty code is
falsy in Python). -/
def errorCodeOrDefault (code : Option String) : String :=
  match code with
  | some c => if c = "" then "value_error" else c
  | none => "value_error"

/-- `error.params.get("value") if error.params else None` (an absent `"value"`
key and an absent/empty `params` dictionary both yield `None`). -/
def leafInput (e : DjangoErrorLeaf) : PyVal :=
  match e.params with
  | none => .pyNone
  | some ps => (ps.lookup "value").getD .pyNone

/-- The record built for one `(loc, error)` pair inside the comprehension of
`convert_to_pydantic_exception` (django/adapter.py lines 224-236). -/
def leafToLineError (loc : String) (e : DjangoErrorLeaf) : PydanticLineError where
  type := errorCodeOrDefault e.code
  msg := String.intercalate ". " e.messages
  loc := if loc = NON_FIELD_ERRORS then [] else [loc]
  input := leafInput e

/-- `DjangoAdapter.convert_to_pydantic_exception` (django/adapter.py lines
212-237): read `exc.error_dict` when present, otherwise file the whole
`error_list` under the `NON_FIELD_ERRORS` key; emit one line error per
`(loc, error)` pair, in iteration order. -/
def convert_to_pydantic_exception (exc : DjangoValidationError) :
    List PydanticLineError :=
  let loc_to_errors : List (String × List DjangoErrorLeaf) :=
    match exc with
    | .withErrorDict d => d
    | .withErrorList l => [(NON_FIELD_ERRORS, l)]
  loc_to_errors.flatMap fun p => p.2.map (leafToLineError p.1)

/-- Spec-side reading: the underlying failures of a Django exception, paired
with the field name they are attributed to, in iteration order. -/
def underlyingFailures (exc : DjangoValidationError) :
    List (String × DjangoErrorLeaf) :=
  match exc with
  | .withErrorDict d => d.flatMap fun p => p.2.map (fun e => (p.1, e))
  | .withErrorList l => l.map (fun e => (NON_FIELD_ERRORS, e))

/-- A two-field `error_dict` exception: one failure on field "name", one
whole-object failure under the non-field marker. -/
def sampleDjangoExc : DjangoValidationError :=
  .withErrorDict
    [("name", [{ code := some "too_short", messages := ["too short"],
                 params := some [("value", .pyStr "a")] }]),
     (NON_FIELD_ERRORS, [{ code := none, messages := ["bad object"],
                           params := none }])]

/-! ## Django fields and validators (`pydbull/django/adapter.py`) -/

/-- The Django validator classes the adapter distinguishes
(`django.core.validators.*`); `custom` stands for any other callable
validator. -/
inductive ValidatorClass where
  | emailValidator
  | minLengthValidator
  | maxLengthValidator
  | stepValueValidator
  | regexValidator
  | urlValidator
  | minValueValidator
  | maxValueValidator
  | custom (name : String)
deriving DecidableEq

/-- Python `isinstance` over the validator classes: `URLValidator` is the one
relevant subclass (of `RegexValidator`); all other classes are unrelated. -/
def ValidatorClass.isInstanceOf (c target : ValidatorClass) : Bool :=
  c == target || (c == .urlValidator && target == .regexValidator)

/-- One validator attached to a Django field: its class, the data the adapter
reads off it (`limit_value`, `offset`, `regex.pattern`), and its runtime
behaviour `check` (`none` = the value passes, `some e` = the validator raises
the leaf `ValidationError` `e`). -/
structure DjangoValidator where
  cls : ValidatorClass
  limitValue : Int
  offset : Int
  regexPattern : String
  check : PyVal → Option DjangoErrorLeaf

/-- The Django field classes the embedded code paths distinguish; classes the
type table does not know (`ArrayField`, `other`) are kept so the unsupported
branch is representable. -/
inductive DjangoFieldClass where
  | charField
  | textField
  | integerField
  | autoField
  | bigAutoField
  | foreignKey
  | manyToManyField
  | floatField
  | decimalField
  | booleanField
  | dateField
  | timeField
  | dateTimeField
  | emailField
  | urlField
  | binaryField
  | durationField
  | slugField
  | arrayField
  | other (name : String)
deriving DecidableEq

/-- A Django model field, as far as the adapter inspects it. `choicesEnum`
models a valid `__choices_enum__` attachment (the `TypeError` branch of
`_try_enum_type` for a non-`Choices` attachment is not representable here). -/
structure DjangoField where
  name : String
  cls : DjangoFieldClass
  null : Bool
  blank : Bool
  choicesEnum : Option String
  validators : List DjangoValidator

/-- `DjangoAdapter._field_is_required` (django/adapter.py lines 379-380). -/
def field_is_required (field : DjangoField) : Bool :=
  !field.blank

/-- `DjangoAdapter._get_validator` (django/adapter.py lines 355-363): first
validator on the field that is an instance of the given class. -/
def get_validator (validator_cls : ValidatorClass) (field : DjangoField) :
    Option DjangoValidator :=
  field.validators.find? (fun v => v.cls.isInstanceOf validator_cls)

/-- `DjangoAdapter.get_min_length` (django/adapter.py lines 49-65): the limit
of a `MinLengthValidator` when present; otherwise `1` for a required
many-to-many/array field; otherwise the Python value `None`. -/
def get_min_length (field : DjangoField) : AdapterVal (Option Int) :=
  match get_validator .minLengthValidator field with
  | some validator => .defined (some validator.limitValue)
  | none =>
    if (field.cls == .manyToManyField || field.cls == .arrayField)
        && field_is_required field then
      .defined (some 1)
    else
      .defined none

/-- `DjangoAdapter.get_pattern` (django/adapter.py lines 67-77): the pattern
of the first `RegexValidator` instance unless its exact type is in the skip
set `{URLValidator}`; otherwise the Python value `None`. -/
def get_pattern (field : DjangoField) : AdapterVal (Option String) :=
  match get_validator .regexValidator field with
  | some validator =>
    if validator.cls != .urlValidator then
      .defined (some validator.regexPattern)
    else
      .defined none
  | none => .defined none

/-- `django.core.validators.EMPTY_VALUES` membership:
`(None, "", [], (), {})`. -/
def isEmptyValue : PyVal → Bool
  | .pyNone => true
  | .pyStr s => s == ""
  | .pyList xs => xs.isEmpty
  | _ => false

/-- Python `isinstance(field, django.db.models.CharField)`: among the
declared field classes, `EmailField`, `URLField` and `SlugField` are
`CharField` subclasses. -/
def DjangoFieldClass.isCharField (cls : DjangoFieldClass) : Bool :=
  match cls with
  | .charField | .emailField | .urlField | .slugField => true
  | _ => false

/-- Lines 155-157 of django/adapter.py: a `None` value on a non-nullable
`CharField` (or `CharField` subclass) is replaced by the empty string. -/
def coerce_null_char_field (field : DjangoField) (value : PyVal) : PyVal :=
  match value with
  | .pyNone =>
    if field.cls.isCharField && !field.null then .pyStr "" else .pyNone
  | v => v

/-- `DjangoAdapter._validator_to_pydantic_error_code` (django/adapter.py
lines 365-377): exact-class mapping from Django validator classes to
pydantic error codes. -/
def validator_to_pydantic_error_code (validator : ValidatorClass) :
    Option String :=
  match validator with
  | .emailValidator => some "value_error"
  | .minLengthValidator => some "too_short"
  | .maxLengthValidator => some "too_long"
  | .stepValueValidator => some "multiple_of"
  | _ => none

/-- Lines 166-168 of django/adapter.py: overwrite the raised exception's code
with the mapped pydantic code when the validator class is mapped. -/
def remapErrorCode (validator : DjangoValidator) (django_exc : DjangoErrorLeaf) :
    DjangoErrorLeaf :=
  match validator_to_pydantic_error_code validator.cls with
  | some pyd_error_code => { django_exc with code := some pyd_error_code }
  | none => django_exc

/-- `DjangoAdapter.run_extra_field_validators` (django/adapter.py lines
145-173): coerce `None` to `""` on a non-nullable `CharField`; return empty
values untouched; otherwise run every validator, collect the (re-coded)
rejections, and raise their translation when any validator rejected. -/
def run_extra_field_validators (field : DjangoField) (value : PyVal) :
    Except (List PydanticLineError) PyVal :=
  let value := coerce_null_char_field field value
  if isEmptyValue value then .ok value
  else
    let errors : List DjangoErrorLeaf :=
      field.validators.filterMap fun validator =>
        match validator.check value with
        | none => none
        | some django_exc => some (remapErrorCode validator django_exc)
    if errors.isEmpty then .ok value
    else .error (convert_to_pydantic_exception (.withErrorList errors))

/-- Spec-side reading: the validators of the field that reject the value,
paired with the exception each one raises, in the order the validators appear
on the field. -/
def failingValidators (field : DjangoField) (value : PyVal) :
    List (DjangoValidator × DjangoErrorLeaf) :=
  field.validators.filterMap fun v => (v.check value).map (fun e => (v, e))

/-! ## Concrete sample fields and validators -/

/-- A required many-to-many field with no explicit length validator. -/
def m2mRequiredField : DjangoField :=
  { name := "tags", cls := .manyToManyField, null := false, blank := false,
    choicesEnum := none, validators := [] }

/-- The same many-to-many field marked optional (`blank=True`). -/
def m2mOptionalField : DjangoField :=
  { name := "tags", cls := .manyToManyField, null := false, blank := true,
    choicesEnum := none, validators := [] }

/-- A `MinLengthValidator(5)` whose runtime behaviour rejects strings shorter
than five characters. -/
def minLengthFive : DjangoValidator :=
  { cls := .minLengthValidator, limitValue := 5, offset := 0,
    regexPattern := "",
    check := fun v =>
      match v with
      | .pyStr s =>
        if s.length < 5 then
          some { code := some "min_length",
                 messages := ["Ensure this value has at least 5 characters."],
                 params := some [("value", v)] }
        else none
      | _ => none }

/-- A non-nullable required `CharField` carrying `minLengthFive`. -/
def nonNullCharField : DjangoField :=
  { name := "name", cls := .charField, null := false, blank := false,
    choicesEnum := none, validators := [minLengthFive] }

/-- A non-nullable required `EmailField` - a `CharField` subclass, so the
`None`-to-`""` coercion applies to it as well. -/
def nonNullEmailField : DjangoField :=
  { name := "email", cls := .emailField, null := false, blank := false,
    choicesEnum := none, validators := [] }

/-- The leaf exception `minLengthFive` raises on the input `"abc"`. -/
def shortStrLeaf : DjangoErrorLeaf :=
  { code := some "min_length",
    messages := ["Ensure this value has at least 5 characters."],
    params := some [("value", .pyStr "abc")] }

/-- A `URLValidator` (subclass of `RegexValidator`): accepts one sample URL,
rejects everything else with code "invalid". -/
def urlValidatorReject : DjangoValidator :=
  { cls := .urlValidator, limitValue := 0, offset := 0,
    regexPattern := "^(?:http|ftp)s?://",
    check := fun v =>
      match v with
      | .pyStr "https://example.com" => none
      | _ => some { code := some "invalid",
                    messages := ["Enter a valid URL."],
                    params := some [("value", v)] } }

/-- The leaf exception `urlValidatorReject` raises on the input `"notaurl"`. -/
def urlLeaf : DjangoErrorLeaf :=
  { code := some "invalid", messages := ["Enter a valid URL."],
    params := some [("value", .pyStr "notaurl")] }

/-- A `URLField` whose validator list holds only the URL validator. -/
def urlField : DjangoField :=
  { name := "link", cls := .urlField, null := false, blank := false,
    choicesEnum := none, validators := [urlValidatorReject] }

/-- A custom validator rejecting every value with code "bad_a". -/
def rejectAllA : DjangoValidator :=
  { cls := .custom "reject_a", limitValue := 0, offset := 0,
    regexPattern := "",
    check := fun v => some { code := some "bad_a", messages := ["A rejects."],
                             params := some [("value", v)] } }

/-- A custom validator rejecting every value with code "bad_b". -/
def rejectAllB : DjangoValidator :=
  { cls := .custom "reject_b", limitValue := 0, offset := 0,
    regexPattern := "",
    check := fun v => some { code := some "bad_b", messages := ["B rejects."],
                             params := some [("value", v)] } }

/-- A field with two always-failing validators, to exercise aggregation. -/
def twoValidatorField : DjangoField :=
  { name := "x", cls := .charField, null := true, blank := false,
    choicesEnum := none, validators := [rejectAllA, rejectAllB] }

/-! ## Models, schemas, provenance (`model_validator.py`, `model_to_pydantic`) -/

/-- A Django model: its class name, the name of its primary-key field
(`_meta.pk.name`) and its fields (`_meta.get_fields()`). -/
structure DjangoModel where
  name : String
  pk : String
  fields : List DjangoField

/-- A `DjangoAdapter` instance: its only instance attribute is the wrapped
`model` (set in `BaseAdapter.__init__`). -/
structure DjangoAdapterRef where
  model : DjangoModel

/-- A pydantic model class, as far as the provenance machinery inspects it:
its name, its field names, and the two provenance attributes
`__pydbull_model__` and `__pydbull_adapter__` (absent unless the schema was
built by `model_validator`). -/
structure PydanticModel where
  name : String
  fieldNames : List String
  pydbullModel : Option DjangoModel
  pydbullAdapter : Option DjangoAdapterRef

/-- The `TypeError`s raised by the provenance lookups. -/
inductive PyTypeError where
  | noPydbullModel
  | noPydbullAdapter
deriving DecidableEq

/-- `get_model` (model_validator.py lines 154-163): return
`model.__pydbull_model__`, raising `TypeError("No pydbull model found. Did
you forget to use the @model_validator decorator?")` when the attribute is
absent. -/
def get_model (model : PydanticModel) : Except PyTypeError DjangoModel :=
  match model.pydbullModel with
  | some m => .ok m
  | none => .error .noPydbullModel

/-- `get_adapter` (model_validator.py lines 166-175): return
`model.__pydbull_adapter__`, raising `TypeError("No pydbull adapter found.
...")` when the attribute is absent. -/
def get_adapter (model : PydanticModel) : Except PyTypeError DjangoAdapterRef :=
  match model.pydbullAdapter with
  | some a => .ok a
  | none => .error .noPydbullAdapter

/-- Lines 119-120 of model_validator.py: the synthesis engine records
provenance on the schema it produces
(`pyd_model.__pydbull_model__ = model; pyd_model.__pydbull_adapter__ =
adapter`). -/
def set_provenance (schema : PydanticModel) (model : DjangoModel)
    (adapter : DjangoAdapterRef) : PydanticModel :=
  { schema with pydbullModel := some model, pydbullAdapter := some adapter }

/-- The pydantic value types appearing in the `_FIELD_TO_PYD_TYPE` table
(`emailStr` is `pydantic.EmailStr` when the email-validator package is
installed, plain `str` otherwise). -/
inductive PydType where
  | str
  | int
  | listInt
  | float
  | decimal
  | bool
  | date
  | time
  | datetime
  | emailStr
  | bytes
  | timedelta
  | choices (enumName : String)
deriving DecidableEq

/-- `_try_enum_type` (django/adapter.py lines 417-425): use the field's
`__choices_enum__` as value type when attached, the default otherwise. -/
def try_enum_type (field : DjangoField) (default : PydType) : PydType :=
  match field.choicesEnum with
  | none => default
  | some enumName => .choices enumName

/-- `_FIELD_TO_PYD_TYPE` (django/adapter.py lines 387-414), restricted to the
field classes declared in `DjangoFieldClass` (the remaining table rows -
UUID, IP, file, image, the small/positive integer variants - are analogous
`str`/`int` rows); `none` models a `KeyError` (class absent from the table,
e.g. `ArrayField`). -/
def field_to_pyd_type (field : DjangoField) : Option PydType :=
  match field.cls with
  | .charField => some (try_enum_type field .str)
  | .textField => some .str
  | .integerField => some (try_enum_type field .int)
  | .autoField => some .int
  | .bigAutoField => some .int
  | .foreignKey => some .int
  | .manyToManyField => some .listInt
  | .floatField => some .float
  | .decimalField => some .decimal
  | .booleanField => some .bool
  | .dateField => some .date
  | .timeField => some .time
  | .dateTimeField => some .datetime
  | .emailField => some .emailStr
  | .urlField => some .str
  | .binaryField => some .bytes
  | .durationField => some .timedelta
  | .slugField => some .str
  | .arrayField => none
  | .other _ => none

/-- Printable class name, used only inside error messages. -/
def field_class_name (cls : DjangoFieldClass) : String :=
  match cls with
  | .charField => "CharField"
  | .textField => "TextField"
  | .integerField => "IntegerField"
  | .autoField => "AutoField"
  | .bigAutoField => "BigAutoField"
  | .foreignKey => "ForeignKey"
  | .manyToManyField => "ManyToManyField"
  | .floatField => "FloatField"
  | .decimalField => "DecimalField"
  | .booleanField => "BooleanField"
  | .dateField => "DateField"
  | .timeField => "TimeField"
  | .dateTimeField => "DateTimeField"
  | .emailField => "EmailField"
  | .urlField => "URLField"
  | .binaryField => "BinaryField"
  | .durationField => "DurationField"
  | .slugField => "SlugField"
  | .arrayField => "ArrayField"
  | .other name => name

/-- The configuration errors (`ValueError`s) `model_to_pydantic` raises. -/
inductive ConfigError where
  | bothFieldsAndExclude
  | unknownField (fieldName : String) (modelName : String)
  | unsupportedFieldType (typeName : String) (modelName : String)
      (fieldName : String)
deriving DecidableEq

/-- The message of each configuration error, mirroring the f-strings of
django/adapter.py lines 244-246, 273 and 279. -/
def ConfigError.message : ConfigError → String
  | .bothFieldsAndExclude => "Cannot specify both fields and exclude."
  | .unknownField f m => "Field " ++ f ++ " not found in " ++ m ++ " model."
  | .unsupportedFieldType t m f =>
      "Unsupported field type: " ++ t ++ " on field " ++ m ++ "." ++ f

/-- `DjangoAdapter.model_field_to_annotation_type` (django/adapter.py lines
239-249), without the callable-vs-type dispatch (the table lambdas are
applied directly). -/
def model_field_to_annotation_type (self : DjangoModel) (field : DjangoField) :
    Except ConfigError PydType :=
  match field_to_pyd_type field with
  | some t => .ok t
  | none =>
    .error (.unsupportedFieldType (field_class_name field.cls) self.name
      field.name)

/-- The nested helper `check_fields_exist_on_model` of `model_to_pydantic`
(django/adapter.py lines 269-273): raise `ValueError(f"Field ... not found
...")` at the first name that is not a model field name. -/
def check_fields_exist_on_model (dj_model_fields : List DjangoField)
    (model_name : String) (fields_ : List String) : Option ConfigError :=
  let model_fields : List String := dj_model_fields.map DjangoField.name
  match fields_.find? (fun f => !model_fields.contains f) with
  | some f => some (.unknownField f model_name)
  | none => none

/-- Lines 292-308 of django/adapter.py: map every retained field to its value
type (possibly failing on an unsupported class), build the pydantic model and
run it through `pydbull.model_validator`, which records provenance on the
result (the constraint merging inside that wrap is modelled separately by
`get_field_value`; the optional-union annotation for non-required fields does
not affect the properties proved here). -/
def build_pydantic_model (self : DjangoModel) (name : String)
    (retained : List DjangoField) : Except ConfigError PydanticModel :=
  match retained.mapM (fun f =>
      (model_field_to_annotation_type self f).map (fun t => (f.name, t))) with
  | .error e => .error e
  | .ok field_to_type =>
    .ok (set_provenance
      { name := name, fieldNames := field_to_type.map Prod.fst,
        pydbullModel := none, pydbullAdapter := none }
      self { model := self })

/-- `DjangoAdapter.model_to_pydantic` (django/adapter.py lines 251-308):
default the name; reject `fields` and `exclude` together; check every name in
`field_annotations`, then in `fields` (or `exclude`) against the model field
names; filter the model fields accordingly and build the schema. -/
def model_to_pydantic (self : DjangoModel) (name : Option String)
    (fields exclude : Option (List String))
    (field_annotations : Option (List String)) :
    Except ConfigError PydanticModel :=
  let name := name.getD (self.name ++ "Validator")
  if fields.isSome && exclude.isSome then
    .error .bothFieldsAndExclude
  else
    let field_annotations := field_annotations.getD []
    let dj_model_fields := self.fields
    match check_fields_exist_on_model dj_model_fields self.name
        field_annotations with
    | some e => .error e
    | none =>
      match fields with
      | some fs =>
        match check_fields_exist_on_model dj_model_fields self.name fs with
        | some e => .error e
        | none =>
          build_pydantic_model self name
            (dj_model_fields.filter (fun f => fs.contains f.name))
      | none =>
        match exclude with
        | some ex =>
          match check_fields_exist_on_model dj_model_fields self.name ex with
          | some e => .error e
          | none =>
            build_pydantic_model self name
              (dj_model_fields.filter (fun f => !ex.contains f.name))
        | none => build_pydantic_model self name dj_model_fields

/-! ## Instance materialization (`DjangoAdapter.get_model_instance`) -/

/-- The value of one attribute of a validated pydantic object: a scalar, or a
nested validated sub-object (which carries its own adapter provenance, read
by `pydbull.get_adapter` during recursion). -/
inductive FieldValue where
  | scalar (v : PyVal)
  | nested (adapter : DjangoAdapterRef) (fields : List (String × FieldValue))

mutual

/-- A live Django model instance: the model, whether it was fetched from the
database (`objects.get`) rather than freshly constructed, and the attributes
assigned so far. -/
inductive DjangoInstance where
  | mk (model : DjangoModel) (fetched : Bool)
      (attrs : List (String × DjangoAttr))

/-- An attribute value on a Django instance. -/
inductive DjangoAttr where
  | scalar (v : PyVal)
  | inst (i : DjangoInstance)

end

def DjangoInstance.model : DjangoInstance → DjangoModel
  | .mk m _ _ => m

def DjangoInstance.fetched : DjangoInstance → Bool
  | .mk _ f _ => f

def DjangoInstance.attrs : DjangoInstance → List (String × DjangoAttr)
  | .mk _ _ a => a

/-- Python `setattr` on the attribute list: overwrite in place or append. -/
def setAttrList (attrs : List (String × DjangoAttr)) (k : String)
    (v : DjangoAttr) : List (String × DjangoAttr) :=
  match attrs with
  | [] => [(k, v)]
  | (k0, v0) :: rest =>
    if k0 = k then (k0, v) :: rest else (k0, v0) :: setAttrList rest k v

def setAttr (inst : DjangoInstance) (k : String) (v : DjangoAttr) :
    DjangoInstance :=
  match inst with
  | .mk m f attrs => .mk m f (setAttrList attrs k v)

mutual

/-- `DjangoAdapter.get_model_instance` (django/adapter.py lines 310-348).
The pk lookup at line 315 is `getattr(self, self.model._meta.pk.name, None)`
where `self` is the ADAPTER object, whose only instance attribute is
`model`; the lookup finds something truthy (the wrapped model class) exactly
when the pk field is literally named like an adapter attribute - modelled
here by the name "model" - and the validated object `data` is never consulted
for the pk. The fetched branch models `self.model.objects.get(pk=...)`. -/
def get_model_instance (self : DjangoAdapterRef)
    (data : List (String × FieldValue)) : Except String DjangoInstance :=
  let inst : DjangoInstance :=
    if self.model.pk == "model" then .mk self.model true []
    else .mk self.model false []
  assign_fields self inst data
termination_by sizeOf data + 1

/-- The field loop of `get_model_instance` (django/adapter.py lines
320-347): skip names that are not model fields, skip many-to-many fields,
recursively materialize nested validated sub-objects into ForeignKey fields
(raising on a nested object for a non-ForeignKey field), assign a scalar to
`<name>_id` for a ForeignKey and to `<name>` otherwise. -/
def assign_fields (self : DjangoAdapterRef) (inst : DjangoInstance) :
    List (String × FieldValue) → Except String DjangoInstance
  | [] => .ok inst
  | (field_name, field_value) :: rest =>
    match self.model.fields.find? (fun f => f.name == field_name) with
    | none => assign_fields self inst rest
    | some django_field =>
      if django_field.cls == .manyToManyField then
        assign_fields self inst rest
      else
        let is_fk_field := django_field.cls == .foreignKey
        match field_value with
        | .nested sub_adapter sub_fields =>
          if !is_fk_field then
            .error ("Field " ++ field_name ++
              " is a validator but the model field is not a ForeignKey.")
          else
            match get_model_instance sub_adapter sub_fields with
            | .error e => .error e
            | .ok sub_inst =>
              assign_fields self (setAttr inst field_name (.inst sub_inst))
                rest
        | .scalar v =>
          if is_fk_field then
            assign_fields self (setAttr inst (field_name ++ "_id") (.scalar v))
              rest
          else
            assign_fields self (setAttr inst field_name (.scalar v)) rest
termination_by l => sizeOf l

end

/-! ## Concrete models and data -/

/-- A primary-key `AutoField` named "id" (`blank=True` like Django sets on
auto-created pks). -/
def idField : DjangoField :=
  { name := "id", cls := .autoField, null := false, blank := true,
    choicesEnum := none, validators := [] }

/-- A plain required title field. -/
def titleField : DjangoField :=
  { name := "title", cls := .charField, null := false, blank := false,
    choicesEnum := none, validators := [] }

/-- A ForeignKey field named "author". -/
def authorFkField : DjangoField :=
  { name := "author", cls := .foreignKey, null := false, blank := false,
    choicesEnum := none, validators := [] }

/-- A many-to-many field named "tags". -/
def tagsM2mField : DjangoField :=
  { name := "tags", cls := .manyToManyField, null := false, blank := true,
    choicesEnum := none, validators := [] }

/-- The nested model of the ForeignKey. -/
def authorModel : DjangoModel :=
  { name := "Author", pk := "id", fields := [idField, titleField] }

def authorAdapter : DjangoAdapterRef := { model := authorModel }

/-- A model with a scalar pk, a scalar field, a ForeignKey and an M2M. -/
def bookModel : DjangoModel :=
  { name := "Book", pk := "id",
    fields := [idField, titleField, authorFkField, tagsM2mField] }

def bookAdapter : DjangoAdapterRef := { model := bookModel }

/-- Validated data for `bookModel` whose pk ("id") IS present and set. -/
def bookData : List (String × FieldValue) :=
  [("id", .scalar (.pyInt 5)),
   ("title", .scalar (.pyStr "t")),
   ("author", .nested authorAdapter [("title", .scalar (.pyStr "a"))]),
   ("tags", .scalar (.pyList [.pyInt 1, .pyInt 2]))]

/-- A pydantic schema never produced by the synthesis engine: no provenance
attributes. -/
def plainSchema : PydanticModel :=
  { name := "Plain", fieldNames := ["x"], pydbullModel := none,
    pydbullAdapter := none }

/-! ## Theorems -/

theorem get_field_value_cons {φ α : Type} (field : String)
    (a : ConstraintSource φ α) (rest : List (ConstraintSource φ α)) :
    get_field_value field (a :: rest) =
      match consult a field with
      | .undefined => get_field_value field rest
      | .defined v => .defined v := by
  cases h : a.fieldGetter field with
  | none => simp [consult, h, get_field_value]
  | some f =>
    cases hg : a.getter f with
    | undefined => simp [consult, h, hg, get_field_value]
    | defined v => simp [consult, h, hg, get_field_value]

/-- C1: in the enrichment path the merged constraint value equals the first
non-Undefined value obtained by consulting the validator-native (pydantic)
adapter and then the source-model adapter, in that order; a defined value
(including a defined `None`) from the earlier adapter always wins, an
Undefined value never overrides a defined one, and the result is Undefined
exactly when both consulted adapters report Undefined. -/
theorem merged_value_is_first_defined {φ α : Type}
    (pydantic_adapter adapter : ConstraintSource φ α) (field : String) :
    get_field_value field [pydantic_adapter, adapter] =
        firstNonUndefined [consult pydantic_adapter field, consult adapter field]
    ∧ (∀ v, consult pydantic_adapter field = .defined v →
        get_field_value field [pydantic_adapter, adapter] = .defined v)
    ∧ (get_field_value field [pydantic_adapter, adapter] = .undefined ↔
        consult pydantic_adapter field = .undefined
          ∧ consult adapter field = .undefined) := by
  rw [get_field_value_cons, get_field_value_cons]
  cases h1 : consult pydantic_adapter field with
  | undefined =>
    cases h2 : consult adapter field with
    | undefined => simp [firstNonUndefined, get_field_value]
    | defined v => simp [firstNonUndefined, get_field_value]
  | defined v =>
    cases h2 : consult adapter field with
    | undefined => simp [firstNonUndefined, get_field_value]
    | defined w => simp [firstNonUndefined, get_field_value]

/-- Witness for C1: the pydantic-side defined `None` wins over the model-side
`7`. -/
theorem merged_value_is_first_defined_witness :
    get_field_value "x" [pydSourceNone, djSourceSeven] = .defined none :=
  (merged_value_is_first_defined pydSourceNone djSourceSeven "x").2.1 none rfl

/-- C2: the translated error set has exactly one record per underlying
failure, in the order of the underlying failures; a failure that cannot be
attributed to a named field (the exception carries no `error_dict`, or the
dict key is the `NON_FIELD_ERRORS` marker) gets the empty location path. -/
theorem convert_one_record_per_failure (exc : DjangoValidationError) :
    convert_to_pydantic_exception exc =
        (underlyingFailures exc).map (fun p => leafToLineError p.1 p.2)
    ∧ (convert_to_pydantic_exception exc).length =
        (underlyingFailures exc).length
    ∧ (∀ l, exc = .withErrorList l →
        ∀ r ∈ convert_to_pydantic_exception exc, r.loc = [])
    ∧ (∀ loc e, (loc, e) ∈ underlyingFailures exc → loc = NON_FIELD_ERRORS →
        (leafToLineError loc e).loc = []) := by
  have hmain : convert_to_pydantic_exception exc =
      (underlyingFailures exc).map (fun p => leafToLineError p.1 p.2) := by
    cases exc with
    | withErrorDict d =>
      simp only [convert_to_pydantic_exception, underlyingFailures,
        List.map_flatMap, List.map_map]
      rfl
    | withErrorList l =>
      simp [convert_to_pydantic_exception, underlyingFailures, List.map_map,
        Function.comp]
  refine ⟨hmain, by rw [hmain, List.length_map], ?_, ?_⟩
  · rintro l rfl r hr
    simp [convert_to_pydantic_exception] at hr
    obtain ⟨e, _, rfl⟩ := hr
    simp [leafToLineError]
  · intro loc e _ hloc
    simp [leafToLineError, hloc]

/-- Witness for C2 at a concrete two-failure exception. -/
theorem convert_one_record_per_failure_witness :
    convert_to_pydantic_exception sampleDjangoExc =
        [{ type := "too_short", msg := "too short", loc := ["name"],
           input := .pyStr "a" },
         { type := "value_error", msg := "bad object", loc := [],
           input := .pyNone }]
    ∧ (leafToLineError NON_FIELD_ERRORS
        { code := none, messages := ["bad object"], params := none }).loc
        = [] := by
  constructor
  · rfl
  · exact (convert_one_record_per_failure sampleDjangoExc).2.2.2
      NON_FIELD_ERRORS _ (by simp [underlyingFailures, sampleDjangoExc]) rfl

theorem errors_eq_failing_map (vs : List DjangoValidator) (value : PyVal) :
    (vs.filterMap fun validator =>
        match validator.check value with
        | none => none
        | some django_exc => some (remapErrorCode validator django_exc)) =
      (vs.filterMap fun v => (v.check value).map (fun e => (v, e))).map
        (fun p => remapErrorCode p.1 p.2) := by
  induction vs with
  | nil => rfl
  | cons v rest ih =>
    cases h : v.check value with
    | none => simpa [List.filterMap_cons, h] using ih
    | some e => simpa [List.filterMap_cons, h] using ih

theorem convert_withErrorList (l : List DjangoErrorLeaf) :
    convert_to_pydantic_exception (.withErrorList l) =
      l.map (leafToLineError NON_FIELD_ERRORS) := by
  simp [convert_to_pydantic_exception]

theorem coerce_of_not_empty (field : DjangoField) (value : PyVal)
    (h : isEmptyValue value = false) :
    coerce_null_char_field field value = value := by
  cases value <;> simp_all [isEmptyValue, coerce_null_char_field]

theorem errors_eq_failing_map_field (field : DjangoField) (value : PyVal) :
    (field.validators.filterMap fun validator =>
        match validator.check value with
        | none => none
        | some django_exc => some (remapErrorCode validator django_exc)) =
      (failingValidators field value).map (fun p => remapErrorCode p.1 p.2) :=
  errors_eq_failing_map field.validators value

/-- On a non-empty value with no rejecting validator, the value comes back
unchanged. -/
theorem run_extra_ok_of_no_failure (field : DjangoField) (value : PyVal)
    (h : isEmptyValue value = false)
    (hf : failingValidators field value = []) :
    run_extra_field_validators field value = .ok value := by
  unfold run_extra_field_validators
  rw [coerce_of_not_empty field value h]
  simp [h, errors_eq_failing_map_field, hf]

/-- On a non-empty value with at least one rejecting validator, the result is
the translation of the collected rejections, one record per failing
validator, in field order. -/
theorem run_extra_error_of_failure (field : DjangoField) (value : PyVal)
    (h : isEmptyValue value = false)
    (hf : failingValidators field value ≠ []) :
    run_extra_field_validators field value =
      .error ((failingValidators field value).map
        (fun p => leafToLineError NON_FIELD_ERRORS (remapErrorCode p.1 p.2))) := by
  rcases hfl : failingValidators field value with _ | ⟨p, rest⟩
  · exact absurd hfl hf
  · unfold run_extra_field_validators
    rw [coerce_of_not_empty field value h]
    simp [h, errors_eq_failing_map_field, hfl, convert_withErrorList,
      Function.comp_def]

theorem failing_eq_nil_iff (field : DjangoField) (value : PyVal) :
    failingValidators field value = [] ↔
      ∀ v ∈ field.validators, v.check value = none := by
  simp [failingValidators, List.filterMap_eq_nil_iff, Option.map_eq_none']

theorem coerce_id (field : DjangoField) (value : PyVal)
    (h : ¬(value = .pyNone ∧ field.cls.isCharField = true
            ∧ field.null = false)) :
    coerce_null_char_field field value = value := by
  cases value with
  | pyNone =>
    cases hc : field.cls.isCharField with
    | false => simp [coerce_null_char_field, hc]
    | true =>
      cases hn : field.null with
      | false => exact absurd ⟨rfl, hc, hn⟩ h
      | true => simp [coerce_null_char_field, hc, hn]
  | pyBool b => rfl
  | pyInt n => rfl
  | pyStr s => rfl
  | pyList xs => rfl

/-- C4 counterexample: on an optional many-to-many field with no explicit
minimum-length validator, `get_min_length` returns the defined Python `None`,
not the Undefined sentinel the claim states. -/
theorem get_min_length_optional_m2m_counterexample :
    get_min_length m2mOptionalField = .defined none
    ∧ get_min_length m2mOptionalField ≠ .undefined := by
  exact ⟨rfl, by decide⟩

/-- C4 (amended): for a many-to-many field with no explicit minimum-length
validator, `get_min_length` returns `1` when the field is required and the
defined Python `None` (not Undefined) when the field is optional. -/
theorem get_min_length_m2m (field : DjangoField)
    (h1 : get_validator .minLengthValidator field = none)
    (h2 : field.cls = .manyToManyField) :
    (field_is_required field = true → get_min_length field = .defined (some 1))
    ∧ (field_is_required field = false →
        get_min_length field = .defined none) := by
  constructor <;> intro hr <;> simp [get_min_length, h1, h2, hr]

/-- Witness for C4 at the two concrete many-to-many fields. -/
theorem get_min_length_m2m_witness :
    get_min_length m2mRequiredField = .defined (some 1)
    ∧ get_min_length m2mOptionalField = .defined none :=
  ⟨(get_min_length_m2m m2mRequiredField rfl rfl).1 rfl,
   (get_min_length_m2m m2mOptionalField rfl rfl).2 rfl⟩

/-- C8 counterexample: on a field whose pattern comes from the URL validator,
`get_pattern` returns the defined Python `None`, not the Undefined sentinel
the claim states. -/
theorem get_pattern_url_counterexample :
    get_pattern urlField = .defined none
    ∧ get_pattern urlField ≠ .undefined := by
  exact ⟨rfl, by decide⟩

/-- C8 (amended): when the first regex-dialect validator found on a field is
the URL validator, `get_pattern` returns the defined Python `None` (not
Undefined) rather than forwarding the incompatible pattern; when it is a
compatible regex validator, its pattern is returned; and the skipped URL rule
is still enforced by `run_extra_field_validators`, whose error set contains
the URL validator's translated rejection. -/
theorem get_pattern_skips_url (field : DjangoField) (v : DjangoValidator)
    (h : get_validator .regexValidator field = some v) :
    (v.cls = .urlValidator → get_pattern field = .defined none)
    ∧ (v.cls ≠ .urlValidator →
        get_pattern field = .defined (some v.regexPattern))
    ∧ (∀ value e, isEmptyValue value = false → v.check value = some e →
        ∃ es, run_extra_field_validators field value = .error es ∧
          leafToLineError NON_FIELD_ERRORS (remapErrorCode v e) ∈ es) := by
  refine ⟨?_, ?_, ?_⟩
  · intro hu
    simp [get_pattern, h, hu]
  · intro hu
    simp [get_pattern, h, bne_iff_ne, hu]
  · intro value e hne hcheck
    have hv : v ∈ field.validators := List.mem_of_find?_eq_some h
    have hmem : (v, e) ∈ failingValidators field value := by
      refine List.mem_filterMap.2 ⟨v, hv, ?_⟩
      rw [hcheck]
      rfl
    have hnil : failingValidators field value ≠ [] := by
      intro h0
      rw [h0] at hmem
      exact absurd hmem (List.not_mem_nil _)
    exact ⟨_, run_extra_error_of_failure field value hne hnil,
      List.mem_map_of_mem _ hmem⟩

/-- Witness for C8: the URL field's pattern is skipped, yet the URL rule is
enforced at validation time. -/
theorem get_pattern_skips_url_witness :
    get_pattern urlField = .defined none
    ∧ ∃ es, run_extra_field_validators urlField (.pyStr "notaurl") = .error es
        ∧ leafToLineError NON_FIELD_ERRORS
            (remapErrorCode urlValidatorReject urlLeaf) ∈ es :=
  ⟨(get_pattern_skips_url urlField urlValidatorReject rfl).1 rfl,
   (get_pattern_skips_url urlField urlValidatorReject rfl).2.2
     (.pyStr "notaurl") urlLeaf rfl rfl⟩

/-- C9: `run_extra_field_validators` returns the value unchanged when no
validator rejects it; an empty value short-circuits all per-field validators
and is returned as-is, with exactly one normalization exception: `None` on a
non-nullable `CharField` (or `CharField` subclass) is coerced to the empty
string before the emptiness check, and that empty string is what is
returned. -/
theorem run_extra_field_validators_pass_through (field : DjangoField)
    (value : PyVal) :
    (value = .pyNone → field.cls.isCharField = true → field.null = false →
      ∀ vs, run_extra_field_validators { field with validators := vs } value
          = .ok (.pyStr ""))
    ∧ (¬(value = .pyNone ∧ field.cls.isCharField = true
          ∧ field.null = false) →
        isEmptyValue value = true →
        ∀ vs, run_extra_field_validators { field with validators := vs } value
          = .ok value)
    ∧ (¬(value = .pyNone ∧ field.cls.isCharField = true
          ∧ field.null = false) →
        (∀ v ∈ field.validators, v.check value = none) →
        run_extra_field_validators field value = .ok value) := by
  refine ⟨?_, ?_, ?_⟩
  · intro hv hc hn vs
    subst hv
    simp [run_extra_field_validators, coerce_null_char_field, hc, hn,
      isEmptyValue]
  · intro hno he vs
    have hcr : coerce_null_char_field { field with validators := vs } value
        = value := coerce_id _ value hno
    simp [run_extra_field_validators, hcr, he]
  · intro hno hall
    have hcr := coerce_id field value hno
    cases hemp : isEmptyValue value with
    | true => simp [run_extra_field_validators, hcr, hemp]
    | false =>
      exact run_extra_ok_of_no_failure field value hemp
        ((failing_eq_nil_iff field value).2 hall)

/-- Witness for C9: `None` on the non-nullable `CharField` comes back as `""`
with the min-length validator skipped, `None` on the non-nullable
`EmailField` (a `CharField` subclass) is coerced likewise, and a passing
non-empty value comes back unchanged. -/
theorem run_extra_field_validators_pass_through_witness :
    run_extra_field_validators nonNullCharField .pyNone = .ok (.pyStr "")
    ∧ run_extra_field_validators nonNullEmailField .pyNone = .ok (.pyStr "")
    ∧ run_extra_field_validators nonNullCharField (.pyStr "valid")
        = .ok (.pyStr "valid") := by
  refine ⟨?_, ?_, ?_⟩
  · exact (run_extra_field_validators_pass_through nonNullCharField
      .pyNone).1 rfl rfl rfl [minLengthFive]
  · exact (run_extra_field_validators_pass_through nonNullEmailField
      .pyNone).1 rfl rfl rfl []
  · refine (run_extra_field_validators_pass_through nonNullCharField
      (.pyStr "valid")).2.2 (by simp) ?_
    intro v hv
    have hv' : v = minLengthFive := by
      simpa [nonNullCharField] using hv
    subst hv'
    rfl

/-- C10: on a non-empty value, the operation succeeds returning the value iff
no attached validator fails; when some validator fails it raises a single
translated error aggregating one entry per failing validator, in the order
the validators appear on the field (so evaluation does not stop at the first
failure). -/
theorem run_extra_field_validators_aggregates (field : DjangoField)
    (value : PyVal) (h : isEmptyValue value = false) :
    (run_extra_field_validators field value = .ok value ↔
      ∀ v ∈ field.validators, v.check value = none)
    ∧ (failingValidators field value ≠ [] →
        run_extra_field_validators field value =
          .error ((failingValidators field value).map
            (fun p => leafToLineError NON_FIELD_ERRORS
              (remapErrorCode p.1 p.2))))
    ∧ ((∃ es, run_extra_field_validators field value = .error es) ↔
        ∃ v ∈ field.validators, v.check value ≠ none) := by
  refine ⟨⟨?_, ?_⟩, ?_, ⟨?_, ?_⟩⟩
  · intro hok
    by_contra hnot
    push_neg at hnot
    obtain ⟨v, hv, hcv⟩ := hnot
    have hne : failingValidators field value ≠ [] := by
      intro h0
      exact hcv ((failing_eq_nil_iff field value).1 h0 v hv)
    rw [run_extra_error_of_failure field value h hne] at hok
    exact Except.noConfusion hok
  · intro hall
    exact run_extra_ok_of_no_failure field value h
      ((failing_eq_nil_iff field value).2 hall)
  · exact run_extra_error_of_failure field value h
  · rintro ⟨es, hes⟩
    by_contra hno
    push_neg at hno
    rw [run_extra_ok_of_no_failure field value h
      ((failing_eq_nil_iff field value).2 hno)] at hes
    exact Except.noConfusion hes
  · rintro ⟨v, hv, hcv⟩
    have hne : failingValidators field value ≠ [] := by
      intro h0
      exact hcv ((failing_eq_nil_iff field value).1 h0 v hv)
    exact ⟨_, run_extra_error_of_failure field value h hne⟩

/-- Witness for C10: both always-failing validators contribute one entry
each, in field order. -/
theorem run_extra_field_validators_aggregates_witness :
    run_extra_field_validators twoValidatorField (.pyStr "x") =
      .error
        [{ type := "bad_a", msg := "A rejects.", loc := [],
           input := .pyStr "x" },
         { type := "bad_b", msg := "B rejects.", loc := [],
           input := .pyStr "x" }] := by
  have hne : failingValidators twoValidatorField (.pyStr "x") ≠ [] := by
    intro h0
    exact List.noConfusion h0
  have hmain := (run_extra_field_validators_aggregates twoValidatorField
    (.pyStr "x") rfl).2.1 hne
  rw [hmain]
  rfl

theorem errorCodeOrDefault_some_ne (c : String) (h : c ≠ "") :
    errorCodeOrDefault (some c) = c := by
  simp [errorCodeOrDefault, h]

/-- C7: the error record produced for a rejecting validator carries the
canonical pydantic code for mapped validator classes (min-length →
"too_short", max-length → "too_long", stride → "multiple_of"); for unmapped
classes the native code of the source exception is kept, and when the source
exception has no code the record's code is the generic "value_error". -/
theorem field_error_code_remapping (field : DjangoField)
    (v : DjangoValidator) (e : DjangoErrorLeaf) (value : PyVal)
    (h1 : isEmptyValue value = false)
    (h2 : field.validators = [v])
    (h3 : v.check value = some e) :
    ∃ r, run_extra_field_validators field value = .error [r]
      ∧ (v.cls = .minLengthValidator → r.type = "too_short")
      ∧ (v.cls = .maxLengthValidator → r.type = "too_long")
      ∧ (v.cls = .stepValueValidator → r.type = "multiple_of")
      ∧ (validator_to_pydantic_error_code v.cls = none →
          r.type = errorCodeOrDefault e.code)
      ∧ (validator_to_pydantic_error_code v.cls = none → e.code = none →
          r.type = "value_error")
      ∧ (validator_to_pydantic_error_code v.cls = none →
          ∀ c, e.code = some c → c ≠ "" → r.type = c) := by
  have hfail : failingValidators field value = [(v, e)] := by
    simp [failingValidators, h2, h3]
  refine ⟨leafToLineError NON_FIELD_ERRORS (remapErrorCode v e),
    ?_, ?_, ?_, ?_, ?_, ?_, ?_⟩
  · rw [run_extra_error_of_failure field value h1 (by simp [hfail])]
    rw [hfail]
    rfl
  · intro hc
    simp only [leafToLineError, remapErrorCode,
      validator_to_pydantic_error_code, hc]
    rfl
  · intro hc
    simp only [leafToLineError, remapErrorCode,
      validator_to_pydantic_error_code, hc]
    rfl
  · intro hc
    simp only [leafToLineError, remapErrorCode,
      validator_to_pydantic_error_code, hc]
    rfl
  · intro hnone
    simp only [leafToLineError, remapErrorCode, hnone]
  · intro hnone hcode
    simp only [leafToLineError, remapErrorCode, hnone, hcode]
    rfl
  · intro hnone c hcode hne
    simp only [leafToLineError, remapErrorCode, hnone, hcode]
    exact errorCodeOrDefault_some_ne c hne

/-- C6: on a schema without provenance metadata both lookups raise a
`TypeError`; neither ever returns a value not literally recorded on the
schema; and on a schema produced by the engine (provenance recorded by
`set_provenance`) they return the recorded source model and adapter. -/
theorem provenance_lookup_strict (m s : PydanticModel) (mdl : DjangoModel)
    (a : DjangoAdapterRef) :
    (m.pydbullModel = none → get_model m = .error .noPydbullModel)
    ∧ (m.pydbullAdapter = none → get_adapter m = .error .noPydbullAdapter)
    ∧ (∀ x, get_model m = .ok x → m.pydbullModel = some x)
    ∧ (∀ x, get_adapter m = .ok x → m.pydbullAdapter = some x)
    ∧ get_model (set_provenance s mdl a) = .ok mdl
    ∧ get_adapter (set_provenance s mdl a) = .ok a := by
  refine ⟨?_, ?_, ?_, ?_, ?_, ?_⟩
  · intro h
    simp [get_model, h]
  · intro h
    simp [get_adapter, h]
  · intro x hx
    cases hm : m.pydbullModel with
    | none => simp [get_model, hm] at hx
    | some y => simp [get_model, hm] at hx; rw [hx]
  · intro x hx
    cases hm : m.pydbullAdapter with
    | none => simp [get_adapter, hm] at hx
    | some y => simp [get_adapter, hm] at hx; rw [hx]
  · simp [get_model, set_provenance]
  · simp [get_adapter, set_provenance]

/-- Witness for C6 at a bare schema and an engine-produced one. -/
theorem provenance_lookup_strict_witness :
    get_model plainSchema = .error .noPydbullModel
    ∧ get_adapter plainSchema = .error .noPydbullAdapter
    ∧ get_model (set_provenance plainSchema bookModel bookAdapter)
        = .ok bookModel :=
  ⟨(provenance_lookup_strict plainSchema plainSchema bookModel bookAdapter).1
     rfl,
   (provenance_lookup_strict plainSchema plainSchema bookModel
     bookAdapter).2.1 rfl,
   (provenance_lookup_strict plainSchema plainSchema bookModel
     bookAdapter).2.2.2.2.1⟩

theorem check_fields_exist_some (dfs : List DjangoField) (mn : String)
    (fs : List String) (e : ConfigError)
    (h : check_fields_exist_on_model dfs mn fs = some e) :
    ∃ g, e = .unknownField g mn ∧ g ∈ fs
      ∧ g ∉ dfs.map DjangoField.name := by
  simp only [check_fields_exist_on_model] at h
  cases hfind : fs.find? (fun f => !(dfs.map DjangoField.name).contains f) with
  | none => rw [hfind] at h; exact Option.noConfusion h
  | some g =>
    rw [hfind] at h
    refine ⟨g, ?_, List.mem_of_find?_eq_some hfind, ?_⟩
    · injection h with h'
      exact h'.symm
    · have hp := List.find?_some hfind
      simpa using hp

theorem check_fields_exist_none (dfs : List DjangoField) (mn : String)
    (fs : List String)
    (h : check_fields_exist_on_model dfs mn fs = none) :
    ∀ g ∈ fs, g ∈ dfs.map DjangoField.name := by
  simp only [check_fields_exist_on_model] at h
  cases hfind : fs.find? (fun f => !(dfs.map DjangoField.name).contains f) with
  | some g => rw [hfind] at h; exact Option.noConfusion h
  | none =>
    intro g hg
    have hp := List.find?_eq_none.1 hfind g hg
    simpa using hp

theorem check_fields_exist_isSome (dfs : List DjangoField) (mn : String)
    (fs : List String) (g : String)
    (hmem : g ∈ fs) (hunk : g ∉ dfs.map DjangoField.name) :
    ∃ e, check_fields_exist_on_model dfs mn fs = some e := by
  have hs : (fs.find?
      (fun f => !(dfs.map DjangoField.name).contains f)).isSome := by
    rw [List.find?_isSome]
    exact ⟨g, hmem, by simpa using hunk⟩
  obtain ⟨f0, hf0⟩ := Option.isSome_iff_exists.mp hs
  refine ⟨.unknownField f0 mn, ?_⟩
  simp only [check_fields_exist_on_model, hf0]

/-- C5: synthesizing a fresh schema fails with the mutual-exclusion
configuration error whenever both `fields` and `exclude` are supplied,
before any field is processed (the member names need not even be valid); and
whenever some name in `fields`, `exclude` or `field_annotations` is not a
model field, it fails with a configuration error carrying exactly such an
offending name in its message; in both cases no schema is produced. -/
theorem model_to_pydantic_config_errors (m : DjangoModel) (nm : Option String)
    (fields exclude field_annotations : Option (List String)) :
    (fields.isSome = true → exclude.isSome = true →
      model_to_pydantic m nm fields exclude field_annotations =
        .error .bothFieldsAndExclude)
    ∧ (¬(fields.isSome = true ∧ exclude.isSome = true) →
        ∀ f, (f ∈ field_annotations.getD [] ∨ f ∈ fields.getD []
              ∨ f ∈ exclude.getD []) →
          f ∉ m.fields.map DjangoField.name →
          ∃ g, g ∉ m.fields.map DjangoField.name
            ∧ (g ∈ field_annotations.getD [] ∨ g ∈ fields.getD []
               ∨ g ∈ exclude.getD [])
            ∧ model_to_pydantic m nm fields exclude field_annotations =
                .error (.unknownField g m.name)
            ∧ (ConfigError.unknownField g m.name).message =
                "Field " ++ g ++ " not found in " ++ m.name ++ " model.") := by
  constructor
  · intro h1 h2
    simp [model_to_pydantic, h1, h2]
  · intro hnot f hf hunk
    have hboth : (fields.isSome && exclude.isSome) = false := by
      cases h1 : fields.isSome <;> cases h2 : exclude.isSome <;> simp_all
    cases hca : check_fields_exist_on_model m.fields m.name
        (field_annotations.getD []) with
    | some e =>
      obtain ⟨g, hge, hgm, hgu⟩ := check_fields_exist_some _ _ _ _ hca
      refine ⟨g, hgu, Or.inl hgm, ?_, rfl⟩
      simp [model_to_pydantic, hboth, hca, hge]
    | none =>
      rcases hf with hfa | hff | hfe
      · exact absurd (check_fields_exist_none _ _ _ hca f hfa) hunk
      · cases hfs : fields with
        | none => rw [hfs] at hff; simp at hff
        | some fs =>
          rw [hfs] at hff
          obtain ⟨e, he⟩ :=
            check_fields_exist_isSome m.fields m.name fs f hff hunk
          obtain ⟨g, hge, hgm, hgu⟩ := check_fields_exist_some _ _ _ _ he
          have hexn : exclude = none := by
            cases hx : exclude with
            | none => rfl
            | some a => exact absurd ⟨by simp [hfs], by simp [hx]⟩ hnot
          refine ⟨g, hgu, Or.inr (Or.inl hgm), ?_, rfl⟩
          simp [model_to_pydantic, hca, hexn, he, hge]
      · cases hex : exclude with
        | none => rw [hex] at hfe; simp at hfe
        | some ex =>
          have hfn : fields = none := by
            cases hfs : fields with
            | none => rfl
            | some fs =>
              exact absurd (by simp [hfs, hex] : fields.isSome = true
                ∧ exclude.isSome = true) hnot
          rw [hex] at hfe
          obtain ⟨e, he⟩ :=
            check_fields_exist_isSome m.fields m.name ex f hfe hunk
          obtain ⟨g, hge, hgm, hgu⟩ := check_fields_exist_some _ _ _ _ he
          refine ⟨g, hgu, Or.inr (Or.inr hgm), ?_, rfl⟩
          simp [model_to_pydantic, hca, hfn, he, hge]

/-- Witness for C5: both lists supplied, and one unknown name in
`field_annotations`. -/
theorem model_to_pydantic_config_errors_witness :
    model_to_pydantic bookModel none (some ["title"]) (some ["id"]) none =
        .error .bothFieldsAndExclude
    ∧ ∃ g, g ∉ bookModel.fields.map DjangoField.name
        ∧ (g ∈ (some ["nope"] : Option (List String)).getD []
           ∨ g ∈ (none : Option (List String)).getD []
           ∨ g ∈ (none : Option (List String)).getD [])
        ∧ model_to_pydantic bookModel none none none (some ["nope"]) =
            .error (.unknownField g bookModel.name)
        ∧ (ConfigError.unknownField g bookModel.name).message =
            "Field " ++ g ++ " not found in " ++ bookModel.name ++
              " model." :=
  ⟨(model_to_pydantic_config_errors bookModel none (some ["title"])
      (some ["id"]) none).1 rfl rfl,
   (model_to_pydantic_config_errors bookModel none none none
      (some ["nope"])).2 (by simp) "nope" (Or.inl (by simp)) (by decide)⟩

theorem setAttr_fetched (inst : DjangoInstance) (k : String)
    (v : DjangoAttr) : (setAttr inst k v).fetched = inst.fetched := by
  cases inst
  rfl

theorem assign_fields_fetched (self : DjangoAdapterRef) :
    ∀ (l : List (String × FieldValue)) (inst out : DjangoInstance),
      assign_fields self inst l = .ok out → out.fetched = inst.fetched := by
  intro l
  induction l with
  | nil =>
    intro inst out h
    simp only [assign_fields] at h
    injection h with h'
    rw [← h']
  | cons p rest ih =>
    intro inst out h
    obtain ⟨field_name, field_value⟩ := p
    simp only [assign_fields] at h
    split at h
    · exact ih inst out h
    · split at h
      · exact ih inst out h
      · split at h
        · split at h
          · exact Except.noConfusion h
          · split at h
            · exact Except.noConfusion h
            · rw [ih _ out h, setAttr_fetched]
        · split at h
          · rw [ih _ out h, setAttr_fetched]
          · rw [ih _ out h, setAttr_fetched]

/-- The fetch-by-pk branch is decided by an attribute lookup on the ADAPTER
object, so for any model whose pk field is not named like the adapter's
`model` attribute, materialization always constructs a fresh instance,
whatever the validated data contains. -/
theorem get_model_instance_fresh (self : DjangoAdapterRef)
    (data : List (String × FieldValue)) (out : DjangoInstance)
    (hpk : self.model.pk ≠ "model")
    (h : get_model_instance self data = .ok out) :
    out.fetched = false := by
  simp only [get_model_instance] at h
  rw [if_neg (by simpa using hpk)] at h
  rw [assign_fields_fetched self data _ out h]
  rfl

/-- C3 (code bug): the validated data for `bookModel` carries the primary
key ("id" = 5), yet `get_model_instance` constructs a fresh instance
(`fetched = false`) instead of fetching by that key, because the pk is looked
up on the adapter object rather than on the validated object; the nested
validated sub-object is still recursively materialized into the ForeignKey
field, and the many-to-many field is skipped (no attribute assigned). -/
theorem get_model_instance_pk_bug :
    get_model_instance bookAdapter bookData =
      .ok (.mk bookModel false
        [("id", .scalar (.pyInt 5)),
         ("title", .scalar (.pyStr "t")),
         ("author", .inst (.mk authorModel false
            [("title", .scalar (.pyStr "a"))]))]) := by
  simp [get_model_instance, assign_fields, bookAdapter, bookModel, bookData,
    authorAdapter, authorModel, idField, titleField, authorFkField,
    tagsM2mField, setAttr, setAttrList]

/-- Witness for C7: the min-length validator's rejection surfaces with the
canonical "too_short" code. -/
theorem field_error_code_remapping_witness :
    ∃ r, run_extra_field_validators nonNullCharField (.pyStr "abc")
          = .error [r]
      ∧ (minLengthFive.cls = .minLengthValidator → r.type = "too_short")
      ∧ (minLengthFive.cls = .maxLengthValidator → r.type = "too_long")
      ∧ (minLengthFive.cls = .stepValueValidator → r.type = "multiple_of")
      ∧ (validator_to_pydantic_error_code minLengthFive.cls = none →
          r.type = errorCodeOrDefault shortStrLeaf.code)
      ∧ (validator_to_pydantic_error_code minLengthFive.cls = none →
          shortStrLeaf.code = none → r.type = "value_error")
      ∧ (validator_to_pydantic_error_code minLengthFive.cls = none →
          ∀ c, shortStrLeaf.code = some c → c ≠ "" → r.type = c) :=
  field_error_code_remapping nonNullCharField minLengthFive shortStrLeaf
    (.pyStr "abc") rfl rfl rfl

end Pydbull
